import Mathlib

/-!
Shallow embedding of `src/audio_photo_logger.ino` (XIAO ESP32S3 Sense
audio/photo logger) and proofs about its acquisition loop and WAV encoder.

The firmware's interesting surface is pure enough to embed directly:
machine integers become `Nat` with explicit `% 2 ^ 32` / `% 2 ^ 16` where C
truncation happens, byte buffers become `List Nat` of values `< 256`, and
hardware calls (camera frame grab, I2S reads, SD writes, `ps_malloc`) become
explicit inputs/outputs of the modelled functions.
-/

namespace AudioPhotoLogger

/-- `#define RECORD_TIME 10` — seconds for each audio recording. -/
def RECORD_TIME : Nat := 10

/-- `#define SAMPLE_RATE 16000U`. -/
def SAMPLE_RATE : Nat := 16000

/-- `#define SAMPLE_BITS 16`. -/
def SAMPLE_BITS : Nat := 16

/-- `#define WAV_HEADER_SIZE 44`. -/
def WAV_HEADER_SIZE : Nat := 44

/-- `#define VOLUME_GAIN 3` — left-shift applied to every 16-bit sample. -/
def VOLUME_GAIN : Nat := 3

/-- `#define PHOTO_INTERVAL 10000` — ms between photos. -/
def PHOTO_INTERVAL : Nat := 10000

/-- `#define SOUND_THRESHOLD 5000` — mic amplitude threshold. -/
def SOUND_THRESHOLD : Int := 5000

/-- Modulus of the 32-bit unsigned integers (`uint32_t` / `unsigned long`
on ESP32). -/
def U32 : Nat := 4294967296

/-- `generate_wav_header(wav_header, wav_size, sample_rate)`: the 44-byte
RIFF/WAVE header exactly as the C initializer builds it.  Each multi-byte
field is spelled as the C initializer spells it: the value and its right
shifts, each truncated to `uint8_t` (`% 256`).  Note that `byte_rate` is
computed from the compile-time macros `SAMPLE_RATE * SAMPLE_BITS / 8`, not
from the `sample_rate` parameter.  The `uint32_t` parameters are reduced
`% U32` on entry, mirroring their C type. -/
def generate_wav_header (wav_size sample_rate : Nat) : List Nat :=
  let ws := wav_size % U32
  let sr := sample_rate % U32
  let file_size := (ws + WAV_HEADER_SIZE - 8) % U32
  let byte_rate := SAMPLE_RATE * SAMPLE_BITS / 8
  [82, 73, 70, 70,
   file_size % 256, file_size / 2 ^ 8 % 256, file_size / 2 ^ 16 % 256,
     file_size / 2 ^ 24 % 256,
   87, 65, 86, 69,
   102, 109, 116, 32,
   16, 0, 0, 0,
   1, 0,
   1, 0,
   sr % 256, sr / 2 ^ 8 % 256, sr / 2 ^ 16 % 256, sr / 2 ^ 24 % 256,
   byte_rate % 256, byte_rate / 2 ^ 8 % 256, byte_rate / 2 ^ 16 % 256,
     byte_rate / 2 ^ 24 % 256,
   2, 0,
   16, 0,
   100, 97, 116, 97,
   ws % 256, ws / 2 ^ 8 % 256, ws / 2 ^ 16 % 256, ws / 2 ^ 24 % 256]

/-- Little-endian decode of the first four bytes of a byte list. -/
def dec32 : List Nat → Nat
  | b0 :: b1 :: b2 :: b3 :: _ => b0 + 2 ^ 8 * b1 + 2 ^ 16 * b2 + 2 ^ 24 * b3
  | _ => 0

/-- The RIFF chunk size field, bytes 4..7 of a header. -/
def header_file_size (h : List Nat) : Nat := dec32 (h.drop 4)

/-- The sample-rate field, bytes 24..27 of a header. -/
def header_sample_rate (h : List Nat) : Nat := dec32 (h.drop 24)

/-- The byte-rate field, bytes 28..31 of a header. -/
def header_byte_rate (h : List Nat) : Nat := dec32 (h.drop 28)

/-- The data chunk size field, bytes 40..43 of a header. -/
def header_data_size (h : List Nat) : Nat := dec32 (h.drop 40)


/-- One 16-bit sample after the gain step: `sample <<= VOLUME_GAIN` on a
`uint16_t`, i.e. multiplication by `2 ^ VOLUME_GAIN` truncated mod `2 ^ 16`. -/
def gain_sample (v : Nat) : Nat := v * 2 ^ VOLUME_GAIN % 2 ^ 16

/-- The gain loop of `record_wav`:
`for (i = 0; i < sample_size; i += 2) *(uint16_t*)(rec_buffer+i) <<= VOLUME_GAIN;`
on a little-endian machine.  Each byte pair `lo, hi` is read as
`lo + 256 * hi`, shifted, and stored back little-endian.  A trailing odd
byte is paired by the C code with the byte one past the payload; only the
low result byte lands inside the payload that is later written, and that
byte is `lo * 2 ^ VOLUME_GAIN % 256`, independent of the out-of-range high
byte. -/
def apply_gain : List Nat → List Nat
  | lo :: hi :: rest =>
    let v := lo % 256 + 2 ^ 8 * (hi % 256)
    gain_sample v % 256 :: gain_sample v / 2 ^ 8 % 256 :: apply_gain rest
  | [lo] => [gain_sample (lo % 256) % 256]
  | [] => []

/-- Little-endian byte encoding of one 16-bit sample value. -/
def enc16 (v : Nat) : List Nat := [v % 256, v / 2 ^ 8 % 256]

/-- A PCM buffer as the concatenation of 16-bit little-endian samples. -/
def sampleBytes (samples : List Nat) : List Nat := (samples.map enc16).flatten

/-- `record_size = (SAMPLE_RATE * SAMPLE_BITS / 8) * RECORD_TIME`. -/
def record_size : Nat := SAMPLE_RATE * SAMPLE_BITS / 8 * RECORD_TIME

/-- Model of `record_wav(audiofile)`: the list of `file.write` calls made to
the audio file, in order.  `mallocOk` is the outcome of
`ps_malloc(record_size)`, and `data` is the byte sequence the blocking
`i2s_read` deposits in the buffer (`sample_size = data.length`).  The C
function opens the file, writes the 44-byte header built for the full
requested `record_size` BEFORE the read, then returns early if allocation
failed; otherwise it reads, applies the gain, and writes the payload as a
second write call. -/
def record_wav (mallocOk : Bool) (data : List Nat) : List (List Nat) :=
  let header := generate_wav_header record_size SAMPLE_RATE
  if mallocOk then [header, apply_gain data]
  else [header]

/-- Result of `setup()`: whether the firmware is stuck in one of the
`while (1);` halt loops, and the two status globals. -/
structure SetupResult where
  halted : Bool
  camera_status : Bool
  sd_status : Bool
  deriving Repr, DecidableEq

/-- Model of `setup()`.  `i2sOk` is `I2S.begin(...)`, `cameraOk` is whether
`esp_camera_init` returned `ESP_OK` inside `CameraParameters()`, `sdMountOk`
is `SD.begin(21)`, `cardPresent` is `SD.cardType() != CARD_NONE`.
`CameraParameters()` merely prints and returns on failure, and `setup()`
sets `camera_status = true` unconditionally afterwards, so `cameraOk` does
not influence the result. -/
def setup (i2sOk cameraOk sdMountOk cardPresent : Bool) : SetupResult :=
  if !i2sOk then ⟨true, false, false⟩
  else
    let camera_status := true
    if !sdMountOk then ⟨true, camera_status, false⟩
    else if !cardPresent then ⟨true, camera_status, false⟩
    else ⟨false, camera_status, true⟩

/-- Kind of a file emitted by the loop. -/
inductive FileKind
  | image
  | audio
  deriving Repr, DecidableEq

/-- A file creation performed by one pass of `loop()`: `/image<idx>.jpg` or
`/audio<idx>.wav`. -/
structure Emit where
  kind : FileKind
  idx : Int
  deriving Repr, DecidableEq

/-- The loop globals: `int fileCount = 1; unsigned long lastPhotoTime = 0;`. -/
structure LoopState where
  fileCount : Int
  lastPhotoTime : Nat
  deriving Repr, DecidableEq

/-- Initial values of the globals. -/
def initialState : LoopState := ⟨1, 0⟩

/-- The environment one pass of `loop()` observes: `now = millis()`, the
camera frame buffer (`none` when `esp_camera_fb_get` fails), the
non-blocking mic poll (`none` when `bytes_read == 0`, otherwise the
`int16_t` sample), and the recording-path outcomes. -/
structure TickInput where
  now : Nat
  frame : Option (List Nat)
  micSample : Option Int
  mallocOk : Bool
  audioData : List Nat
  deriving Repr, DecidableEq

/-- `uint32_t` subtraction `a - b` (two's-complement wraparound). -/
def u32sub (a b : Nat) : Nat := (a % U32 + U32 - b % U32) % U32

/-- The photo-timer test `now - lastPhotoTime >= PHOTO_INTERVAL` in
`unsigned long` (32-bit) arithmetic. -/
def photoDue (now last : Nat) : Bool := PHOTO_INTERVAL ≤ u32sub now last

/-- The trigger test `bytes_read > 0 && abs(sample) > SOUND_THRESHOLD`. -/
def soundTriggered : Option Int → Bool
  | none => false
  | some v => SOUND_THRESHOLD < |v|

/-- Whether this pass of `loop()` enters the recording branch. -/
def recordingEntered (i : TickInput) : Bool := soundTriggered i.micSample

/-- One pass of the body of `loop()` (after the status guard): the photo
timer block, then the mic poll and sound trigger block.  Returns the
updated globals and the files created, in order.  A photo file is emitted
only when the frame grab succeeds (`photo_save` returns early on a null
frame buffer); `lastPhotoTime` and `fileCount` are updated
unconditionally inside the timer block.  The audio branch always creates
`/audio<fileCount>.wav` (at least the header is written) and increments
`fileCount`, whatever `record_wav` did. -/
def tick (s : LoopState) (i : TickInput) : LoopState × List Emit :=
  let due := photoDue i.now s.lastPhotoTime
  let ev1 : List Emit :=
    if due then
      match i.frame with
      | some _ => [⟨FileKind.image, s.fileCount⟩]
      | none => []
    else []
  let s1 : LoopState :=
    if due then ⟨s.fileCount + 1, i.now % U32⟩ else s
  let ev2 : List Emit :=
    if recordingEntered i then [⟨FileKind.audio, s1.fileCount⟩] else []
  let s2 : LoopState :=
    if recordingEntered i then ⟨s1.fileCount + 1, s1.lastPhotoTime⟩ else s1
  (s2, ev1 ++ ev2)

/-- The status guard at the top of `loop()`:
`if (!(camera_status && sd_status)) return;`. -/
def loop_tick (cam sd : Bool) (s : LoopState) (i : TickInput) :
    LoopState × List Emit :=
  if cam && sd then tick s i else (s, [])

/-- Repeated invocation of `loop()` on a list of tick environments. -/
def runTrace (s : LoopState) : List TickInput → LoopState × List Emit
  | [] => (s, [])
  | i :: is =>
    let r1 := tick s i
    let r2 := runTrace r1.1 is
    (r2.1, r1.2 ++ r2.2)

lemma generate_wav_header_length (ws sr : Nat) :
    (generate_wav_header ws sr).length = 44 := rfl

lemma header_file_size_eq (ws sr : Nat) :
    header_file_size (generate_wav_header ws sr) = (ws % U32 + 36) % U32 := by
  have h : header_file_size (generate_wav_header ws sr) =
      (ws % U32 + WAV_HEADER_SIZE - 8) % U32 % 256 +
      2 ^ 8 * ((ws % U32 + WAV_HEADER_SIZE - 8) % U32 / 2 ^ 8 % 256) +
      2 ^ 16 * ((ws % U32 + WAV_HEADER_SIZE - 8) % U32 / 2 ^ 16 % 256) +
      2 ^ 24 * ((ws % U32 + WAV_HEADER_SIZE - 8) % U32 / 2 ^ 24 % 256) := rfl
  rw [h]
  simp only [WAV_HEADER_SIZE, U32]
  omega

lemma header_sample_rate_eq (ws sr : Nat) :
    header_sample_rate (generate_wav_header ws sr) = sr % U32 := by
  have h : header_sample_rate (generate_wav_header ws sr) =
      sr % U32 % 256 + 2 ^ 8 * (sr % U32 / 2 ^ 8 % 256) +
      2 ^ 16 * (sr % U32 / 2 ^ 16 % 256) +
      2 ^ 24 * (sr % U32 / 2 ^ 24 % 256) := rfl
  rw [h]
  simp only [U32]
  omega

lemma header_byte_rate_eq (ws sr : Nat) :
    header_byte_rate (generate_wav_header ws sr) =
      SAMPLE_RATE * SAMPLE_BITS / 8 := by
  simp [generate_wav_header, header_byte_rate, dec32, List.drop,
    SAMPLE_RATE, SAMPLE_BITS]

lemma header_data_size_eq (ws sr : Nat) :
    header_data_size (generate_wav_header ws sr) = ws % U32 := by
  have h : header_data_size (generate_wav_header ws sr) =
      ws % U32 % 256 + 2 ^ 8 * (ws % U32 / 2 ^ 8 % 256) +
      2 ^ 16 * (ws % U32 / 2 ^ 16 % 256) +
      2 ^ 24 * (ws % U32 / 2 ^ 24 % 256) := rfl
  rw [h]
  simp only [U32]
  omega

lemma tick_fileCount (s : LoopState) (i : TickInput) :
    (tick s i).1.fileCount =
      s.fileCount + (if photoDue i.now s.lastPhotoTime then 1 else 0) +
        (if recordingEntered i then 1 else 0) := by
  cases hd : photoDue i.now s.lastPhotoTime <;>
    cases ht : recordingEntered i <;> simp [tick, hd, ht]

lemma tick_lastPhotoTime (s : LoopState) (i : TickInput) :
    (tick s i).1.lastPhotoTime =
      if photoDue i.now s.lastPhotoTime then i.now % U32
      else s.lastPhotoTime := by
  cases hd : photoDue i.now s.lastPhotoTime <;>
    cases ht : recordingEntered i <;> simp [tick, hd, ht]

lemma tick_fileCount_mono (s : LoopState) (i : TickInput) :
    s.fileCount ≤ (tick s i).1.fileCount := by
  rw [tick_fileCount]
  split <;> split <;> omega

lemma tick_event_bounds (s : LoopState) (i : TickInput) :
    ∀ e ∈ (tick s i).2, s.fileCount ≤ e.idx ∧ e.idx < (tick s i).1.fileCount := by
  cases hd : photoDue i.now s.lastPhotoTime <;>
    cases ht : recordingEntered i <;>
    cases hf : i.frame <;>
    simp [tick, hd, ht, hf] <;> omega

lemma tick_chain (s : LoopState) (i : TickInput) :
    List.Chain' (fun a b : Emit => a.idx < b.idx) (tick s i).2 := by
  cases hd : photoDue i.now s.lastPhotoTime <;>
    cases ht : recordingEntered i <;>
    cases hf : i.frame <;>
    simp [tick, hd, ht, hf]

lemma runTrace_fileCount_mono (l : List TickInput) (s : LoopState) :
    s.fileCount ≤ (runTrace s l).1.fileCount := by
  induction l generalizing s with
  | nil => simp [runTrace]
  | cons i is ih =>
    simp only [runTrace]
    exact le_trans (tick_fileCount_mono s i) (ih (tick s i).1)

lemma runTrace_event_bounds (l : List TickInput) (s : LoopState) :
    ∀ e ∈ (runTrace s l).2,
      s.fileCount ≤ e.idx ∧ e.idx < (runTrace s l).1.fileCount := by
  induction l generalizing s with
  | nil => simp [runTrace]
  | cons i is ih =>
    intro e he
    simp only [runTrace, List.mem_append] at he
    rcases he with h | h
    · have hb := tick_event_bounds s i e h
      have hm := runTrace_fileCount_mono is (tick s i).1
      exact ⟨hb.1, lt_of_lt_of_le hb.2 hm⟩
    · have hb := ih (tick s i).1 e h
      have hm := tick_fileCount_mono s i
      exact ⟨le_trans hm hb.1, hb.2⟩

lemma runTrace_chain (l : List TickInput) (s : LoopState) :
    List.Chain' (fun a b : Emit => a.idx < b.idx) (runTrace s l).2 := by
  induction l generalizing s with
  | nil => simp [runTrace]
  | cons i is ih =>
    simp only [runTrace]
    refine List.Chain'.append (tick_chain s i) (ih (tick s i).1) ?_
    intro x hx y hy
    have hxm := List.mem_of_mem_getLast? hx
    have hym := List.mem_of_mem_head? hy
    have hb1 := tick_event_bounds s i x hxm
    have hb2 := runTrace_event_bounds is (tick s i).1 y hym
    exact lt_of_lt_of_le hb1.2 hb2.1

/-- C1, counterexample: the claim requires the header's byte_rate field to
equal the passed sample rate times bit depth / 8; for a passed sample rate
of 8000 that would be 16000, but the field holds 32000, computed from the
compile-time `SAMPLE_RATE` macro instead of the parameter. -/
theorem wav_header_byte_rate_cex :
    header_byte_rate (generate_wav_header 1000 8000) ≠ 8000 * SAMPLE_BITS / 8 := by
  decide

/-- C1, amended: for every data size and sample rate below `2 ^ 32`, the
produced header is 44 bytes, its file_size field equals
`(dataSize + 36) % 2 ^ 32`, its byte_rate field equals the compile-time
`SAMPLE_RATE * SAMPLE_BITS / 8` (32000) regardless of the passed sample
rate, and the little-endian decodings of the sample-rate and data-size
fields recover the passed parameters exactly. -/
theorem wav_header_fields (ws sr : Nat) (hws : ws < U32) (hsr : sr < U32) :
    (generate_wav_header ws sr).length = 44 ∧
    header_file_size (generate_wav_header ws sr) = (ws + 36) % U32 ∧
    header_byte_rate (generate_wav_header ws sr) = SAMPLE_RATE * SAMPLE_BITS / 8 ∧
    header_sample_rate (generate_wav_header ws sr) = sr ∧
    header_data_size (generate_wav_header ws sr) = ws := by
  refine ⟨generate_wav_header_length ws sr, ?_, header_byte_rate_eq ws sr, ?_, ?_⟩
  · rw [header_file_size_eq, Nat.mod_eq_of_lt hws]
  · rw [header_sample_rate_eq, Nat.mod_eq_of_lt hsr]
  · rw [header_data_size_eq, Nat.mod_eq_of_lt hws]

/-- Witness for the amended C1 theorem at data size 1000, sample rate 8000. -/
theorem wav_header_fields_witness :
    header_file_size (generate_wav_header 1000 8000) = 1036 ∧
    header_sample_rate (generate_wav_header 1000 8000) = 8000 := by
  have h := wav_header_fields 1000 8000 (by decide) (by decide)
  refine ⟨?_, h.2.2.2.1⟩
  rw [h.2.1]
  decide

/-- C2, counterexample: with the bulk read delivering only 2 bytes (fewer
than the requested `record_size`), `record_wav` issues two write calls,
not one, and the persisted header's data-size field holds the requested
320000, not the 2 bytes actually read. -/
theorem record_wav_short_read_cex :
    (record_wav true [171, 205]).length ≠ 1 ∧
    header_data_size ((record_wav true [171, 205]).headD []) ≠ 2 := by
  constructor <;> decide

/-- C2, amended: the persisted header always describes the originally
requested `record_size` (it is generated and written before the bulk read
ever runs), and header and payload are written as two separate write
calls: the first write is the 44-byte header whose data-size field is
320000 whatever the read returned, and when allocation succeeds the
second write is the gain-processed payload. -/
theorem record_wav_writes (mallocOk : Bool) (data : List Nat) :
    (record_wav mallocOk data).headD [] =
      generate_wav_header record_size SAMPLE_RATE ∧
    header_data_size ((record_wav mallocOk data).headD []) = record_size ∧
    (mallocOk = true →
      record_wav mallocOk data =
        [generate_wav_header record_size SAMPLE_RATE, apply_gain data]) ∧
    (mallocOk = false →
      record_wav mallocOk data = [generate_wav_header record_size SAMPLE_RATE]) := by
  have hh : header_data_size (generate_wav_header record_size SAMPLE_RATE) =
      record_size := by
    rw [header_data_size_eq]
    decide
  cases mallocOk <;> simp [record_wav, hh]

/-- Witness for the amended C2 theorem: a successful-allocation run with a
two-byte read produces exactly the header write followed by the payload
write. -/
theorem record_wav_writes_witness :
    record_wav true [171, 205] =
      [generate_wav_header record_size SAMPLE_RATE, apply_gain [171, 205]] :=
  (record_wav_writes true [171, 205]).2.2.1 rfl

/-- C3: the code evaluated at the failing input.  When `esp_camera_init`
fails but I2S, SD mount and card detection succeed, `setup` does not halt
(`CameraParameters` only prints and returns, and `camera_status` is set
true unconditionally), the `loop` status guard passes, and a subsequent
loop pass still performs captures and writes — here a sound-triggered
tick creates an audio file.  The system therefore does not halt
permanently as the claim states. -/
theorem camera_init_failure_not_fatal :
    (setup true false true true).halted = false ∧
    (setup true false true true).camera_status = true ∧
    loop_tick (setup true false true true).camera_status
        (setup true false true true).sd_status initialState
        ⟨10000, none, some 6000, true, []⟩ =
      (⟨3, 10000⟩, [⟨FileKind.audio, 2⟩]) := by
  refine ⟨rfl, rfl, ?_⟩
  decide

/-- C4, counterexample: when allocation fails the recording is abandoned,
but file content HAS already been persisted for it: the 44-byte header was
written before the allocation, so the list of writes is not empty. -/
theorem malloc_fail_persists_header_cex :
    record_wav false [] ≠ [] ∧
    ((record_wav false []).headD []).length = 44 := by
  constructor <;> decide

/-- C4, amended: when buffer allocation fails the recording is abandoned
without a crash and no payload is written — the only persisted content is
the 44-byte header (describing the full requested size) that was written
before the allocation attempt — and the loop continues: the tick still
completes, stepping `fileCount` past the abandoned recording. -/
theorem malloc_fail_skips_recording (d : List Nat) (s : LoopState)
    (i : TickInput) (hs : recordingEntered i = true) :
    record_wav false d = [generate_wav_header record_size SAMPLE_RATE] ∧
    (record_wav false d).length = 1 ∧
    (tick s i).1.fileCount =
      s.fileCount + (if photoDue i.now s.lastPhotoTime then 1 else 0) + 1 := by
  refine ⟨rfl, rfl, ?_⟩
  rw [tick_fileCount, hs]
  simp

/-- Witness for the amended C4 theorem on a quiet-timer tick with a loud
sample and failing allocation. -/
theorem malloc_fail_skips_recording_witness :
    record_wav false [] = [generate_wav_header record_size SAMPLE_RATE] ∧
    (tick initialState ⟨0, none, some 6000, false, []⟩).1.fileCount = 2 := by
  have h := malloc_fail_skips_recording [] initialState
    ⟨0, none, some 6000, false, []⟩ (by decide)
  refine ⟨h.1, ?_⟩
  rw [h.2.2]
  decide

lemma apply_gain_cons (v : Nat) (rest : List Nat) :
    apply_gain (enc16 v ++ rest) =
      enc16 (v % 2 ^ 16 * 2 ^ VOLUME_GAIN % 2 ^ 16) ++ apply_gain rest := by
  simp only [enc16, List.cons_append, List.nil_append, apply_gain,
    gain_sample, VOLUME_GAIN, List.cons.injEq]
  refine ⟨?_, ?_, rfl⟩ <;> omega

lemma apply_gain_zeros (n : Nat) :
    apply_gain (List.replicate (2 * n) 0) = List.replicate (2 * n) 0 := by
  induction n with
  | zero => rfl
  | succ m ih =>
    have h2 : 2 * (m + 1) = 2 * m + 1 + 1 := by omega
    rw [h2, List.replicate_succ, List.replicate_succ]
    show apply_gain (0 :: 0 :: List.replicate (2 * m) 0) =
      0 :: 0 :: List.replicate (2 * m) 0
    simp [apply_gain, gain_sample, ih]

/-- C5: the photo block of a loop pass triggers iff
`now - lastPhotoTime >= PHOTO_INTERVAL` in 32-bit unsigned arithmetic; an
image file is created iff that condition holds and the frame grab
succeeds; on a trigger `lastPhotoTime` is set to `now` regardless of the
capture outcome, and a second pass at the same `now` cannot re-trigger. -/
theorem photo_timer_gating (s : LoopState) (i j : TickInput)
    (hsame : j.now = i.now) :
    (photoDue i.now s.lastPhotoTime = true ↔
      PHOTO_INTERVAL ≤ u32sub i.now s.lastPhotoTime) ∧
    ((∃ e ∈ (tick s i).2, e.kind = FileKind.image) ↔
      (photoDue i.now s.lastPhotoTime = true ∧ i.frame.isSome = true)) ∧
    (photoDue i.now s.lastPhotoTime = true →
      (tick s i).1.lastPhotoTime = i.now % U32 ∧
      photoDue j.now (tick s i).1.lastPhotoTime = false) := by
  refine ⟨by simp [photoDue], ?_, ?_⟩
  · cases hd : photoDue i.now s.lastPhotoTime <;>
      cases ht : recordingEntered i <;>
      cases hf : i.frame <;>
      simp [tick, hd, ht, hf]
  · intro hd
    have hl : (tick s i).1.lastPhotoTime = i.now % U32 := by
      rw [tick_lastPhotoTime, if_pos hd]
    refine ⟨hl, ?_⟩
    rw [hl, hsame]
    simp only [photoDue, u32sub, PHOTO_INTERVAL, U32, decide_eq_false_iff_not]
    omega

/-- Witness for C5 on the first due tick: after a trigger at `now = 10000`
the timestamp is written back and the same clock value cannot
re-trigger. -/
theorem photo_timer_gating_witness :
    (tick initialState ⟨10000, some [1], none, true, []⟩).1.lastPhotoTime =
      10000 % U32 ∧
    photoDue 10000
      (tick initialState ⟨10000, some [1], none, true, []⟩).1.lastPhotoTime =
        false :=
  (photo_timer_gating initialState ⟨10000, some [1], none, true, []⟩
    ⟨10000, some [1], none, true, []⟩ rfl).2.2 (by decide)

/-- C6: a loop pass creates an audio file iff the non-blocking poll
returned a sample (`bytes_read > 0`) whose absolute magnitude strictly
exceeds `SOUND_THRESHOLD`; a magnitude exactly at the threshold never
triggers a recording. -/
theorem sound_threshold_gating (s : LoopState) (i : TickInput) :
    ((∃ e ∈ (tick s i).2, e.kind = FileKind.audio) ↔
      (∃ v : Int, i.micSample = some v ∧ SOUND_THRESHOLD < |v|)) ∧
    (∀ v : Int, |v| = SOUND_THRESHOLD → soundTriggered (some v) = false) := by
  constructor
  · cases hm : i.micSample with
    | none =>
      cases hd : photoDue i.now s.lastPhotoTime <;>
        cases hf : i.frame <;>
        simp [tick, recordingEntered, soundTriggered, hd, hf, hm]
    | some v =>
      by_cases hv : SOUND_THRESHOLD < |v| <;>
        cases hd : photoDue i.now s.lastPhotoTime <;>
        cases hf : i.frame <;>
        simp [tick, recordingEntered, soundTriggered, hd, hf, hm, hv]
  · intro v hv
    simp [soundTriggered, hv]

/-- Witness for C6: a sample of exactly `SOUND_THRESHOLD` magnitude does
not start a recording. -/
theorem sound_threshold_gating_witness :
    soundTriggered (some 5000) = false :=
  (sound_threshold_gating initialState
    ⟨0, none, some 5000, true, []⟩).2 5000 (by decide)

/-- C7: `fileCount` starts at 1, never decreases across any loop pass, and
over every trace of the loop the indices embedded in the emitted
filenames are at least 1, strictly increasing, and free of repeats. -/
theorem sequence_counter_monotone (inputs : List TickInput) :
    initialState.fileCount = 1 ∧
    (∀ (s : LoopState) (i : TickInput), s.fileCount ≤ (tick s i).1.fileCount) ∧
    List.Chain' (fun a b : Emit => a.idx < b.idx)
      (runTrace initialState inputs).2 ∧
    (∀ e ∈ (runTrace initialState inputs).2, 1 ≤ e.idx) ∧
    List.Pairwise (fun a b : Emit => a.idx ≠ b.idx)
      (runTrace initialState inputs).2 := by
  refine ⟨rfl, tick_fileCount_mono, runTrace_chain inputs initialState, ?_, ?_⟩
  · intro e he
    exact (runTrace_event_bounds inputs initialState e he).1
  · have h := runTrace_chain inputs initialState
    haveI : IsTrans Emit (fun a b : Emit => a.idx < b.idx) :=
      ⟨fun _ _ _ hab hbc => lt_trans hab hbc⟩
    rw [List.chain'_iff_pairwise] at h
    exact h.imp (fun hlt => ne_of_lt hlt)

/-- C8: the gain step multiplies every 16-bit little-endian sample by
`2 ^ VOLUME_GAIN` and truncates mod `2 ^ 16` — pure wraparound, no
clipping: on any sample buffer the output is exactly the input samples
shifted mod `2 ^ 16`; an all-zero buffer maps to an all-zero buffer; and
the max-magnitude 16-bit samples 0x7FFF and 0x8000 produce the wrapped
bit patterns 0xFFF8 and 0x0000, never a clamped value. -/
theorem gain_shift_wraparound (samples : List Nat) (n : Nat) :
    apply_gain (sampleBytes samples) =
      sampleBytes (samples.map fun v => v % 2 ^ 16 * 2 ^ VOLUME_GAIN % 2 ^ 16) ∧
    apply_gain (List.replicate (2 * n) 0) = List.replicate (2 * n) 0 ∧
    apply_gain [255, 127] = [248, 255] ∧
    apply_gain [0, 128] = [0, 0] := by
  refine ⟨?_, apply_gain_zeros n, by decide, by decide⟩
  induction samples with
  | nil => rfl
  | cons v vs ih =>
    simp only [sampleBytes, List.map_cons, List.flatten_cons] at ih ⊢
    rw [apply_gain_cons, ih]

/-- C9: a sound-trigger pass on which the photo is not yet due leaves
`lastPhotoTime` untouched (only the timer branch writes it), so a photo
due by the next pass still fires then: the delayed photo is captured, not
dropped. -/
theorem recording_delays_photo (s : LoopState) (i j : TickInput)
    (hnotdue : photoDue i.now s.lastPhotoTime = false)
    (hrec : recordingEntered i = true)
    (hdue : photoDue j.now s.lastPhotoTime = true)
    (hframe : j.frame.isSome = true) :
    (tick s i).1.lastPhotoTime = s.lastPhotoTime ∧
    photoDue j.now (tick s i).1.lastPhotoTime = true ∧
    ∃ e ∈ (tick (tick s i).1 j).2, e.kind = FileKind.image := by
  have h1 : (tick s i).1.lastPhotoTime = s.lastPhotoTime := by
    rw [tick_lastPhotoTime, if_neg]
    simp [hnotdue]
  refine ⟨h1, by rw [h1]; exact hdue, ?_⟩
  rcases Option.isSome_iff_exists.mp hframe with ⟨f, hf⟩
  have hd2 : photoDue j.now (tick s i).1.lastPhotoTime = true := by
    rw [h1]; exact hdue
  generalize (tick s i).1 = s1 at hd2 ⊢
  cases ht2 : recordingEntered j <;>
    simp [tick, hd2, hf, ht2]

/-- Witness for C9: a loud quiet-timer tick at t=5000 followed by a due
tick at t=10000 still produces the photo. -/
theorem recording_delays_photo_witness :
    (tick initialState ⟨5000, none, some 6000, true, []⟩).1.lastPhotoTime =
      initialState.lastPhotoTime ∧
    photoDue 10000
      (tick initialState ⟨5000, none, some 6000, true, []⟩).1.lastPhotoTime =
        true ∧
    ∃ e ∈ (tick (tick initialState ⟨5000, none, some 6000, true, []⟩).1
      ⟨10000, some [1], none, true, []⟩).2, e.kind = FileKind.image :=
  recording_delays_photo initialState ⟨5000, none, some 6000, true, []⟩
    ⟨10000, some [1], none, true, []⟩ (by decide) (by decide) (by decide)
    (by decide)

/-- C10: the timer comparison is 32-bit modular subtraction, so it stays
correct across clock wraparound: for true elapsed times `t0 ≤ t` whose
difference is below `2 ^ 32` ms, the 32-bit clock readings trigger the
photo exactly when at least `PHOTO_INTERVAL` ms have elapsed — including
when the reading of `now` has wrapped numerically below that of
`lastPhotoTime`. -/
theorem timer_modular_wraparound (t0 t : Nat) (h1 : t0 ≤ t)
    (h2 : t - t0 < U32) :
    u32sub (t % U32) (t0 % U32) = t - t0 ∧
    (photoDue (t % U32) (t0 % U32) = true ↔ PHOTO_INTERVAL ≤ t - t0) := by
  have hu : u32sub (t % U32) (t0 % U32) = t - t0 := by
    have h2' : t - t0 < 4294967296 := h2
    show (t % 4294967296 % 4294967296 + 4294967296 -
        t0 % 4294967296 % 4294967296) % 4294967296 = t - t0
    omega
  refine ⟨hu, ?_⟩
  simp [photoDue, hu]

/-- Witness for C10 at a wrapped clock: last photo at reading 4294967196
(100 ms before wrap), now at reading 9905 (after wrap), elapsed 10005 ms:
the reading of now is numerically below the stored timestamp, yet the
photo fires. -/
theorem timer_modular_wraparound_witness :
    4294977201 % U32 < 4294967196 % U32 ∧
    photoDue (4294977201 % U32) (4294967196 % U32) = true :=
  ⟨by decide,
    (timer_modular_wraparound 4294967196 4294977201 (by decide)
      (by decide)).2.mpr (by decide)⟩

end AudioPhotoLogger
